import Mathlib

/-!
Verification of the Transcript Query Hub client (Angular portal) and the
spec-modelled parts of its backend engine.

Shallow embedding conventions:
* TypeScript interfaces become Lean structures; optional fields become Option.
* Interface shape (which fields an API contract declares, and whether they are
  optional) is additionally embedded as a list of named fields, so that claims
  about the presence or absence of a field are statable.
* Angular services keeping state in BehaviorSubject or signal members become
  explicit state types, and each subscription side effect (the tap blocks)
  becomes a pure state-transition function.
* HTTP calls become request descriptions (method, endpoint, params); the rxjs
  retry combinator becomes an explicit attempt-counting runner.
* Numbers are modelled as Nat or Rat as the source uses them.
-/

/-- One declared field of a TypeScript interface: its name and whether the
source declares it optional (with a question mark). -/
structure TSField where
  name : String
  optional : Bool
deriving DecidableEq

/-- Names of all fields of an interface shape. -/
def fieldNames (fs : List TSField) : List String := fs.map TSField.name

/-- Names of the required (non-optional) fields of an interface shape. -/
def requiredFieldNames (fs : List TSField) : List String :=
  (fs.filter (fun f => !f.optional)).map TSField.name

/-- Field shape of the QuerySource interface in core/models/query.model.ts. -/
def querySourceFields : List TSField :=
  [⟨"transcript_id", false⟩, ⟨"chunk_index", false⟩, ⟨"score", false⟩,
   ⟨"preview", false⟩]

/-- Field shape of the QueryResponse interface in core/models/query.model.ts. -/
def queryResponseFields : List TSField :=
  [⟨"success", false⟩, ⟨"query", false⟩, ⟨"answer", false⟩, ⟨"sources", false⟩,
   ⟨"confidence", false⟩, ⟨"timestamp", true⟩]

/-- Field shape of the UploadResponse interface in
core/models/transcript.model.ts. -/
def uploadResponseFields : List TSField :=
  [⟨"success", false⟩, ⟨"message", false⟩, ⟨"filename", false⟩,
   ⟨"size", false⟩, ⟨"indexed", false⟩, ⟨"chunks_created", true⟩]

/-- QuerySource from core/models/query.model.ts: one cited chunk of a query
answer. -/
structure QuerySource where
  transcript_id : String
  chunk_index : Nat
  score : Rat
  preview : String
deriving DecidableEq

/-- QueryResponse from core/models/query.model.ts: the payload returned by the
query entrypoint. -/
structure QueryResponse where
  success : Bool
  query : String
  answer : String
  sources : List QuerySource
  confidence : Rat
  timestamp : Option String
deriving DecidableEq

/-- Modelled from the spec: the Retriever threshold step. The backend engine
behind POST /api/query/ is not part of the portal source; per the spec the
retriever "filters candidates below min_score" from a candidate list ordered
by descending similarity. -/
def retrieveFiltered (minScore : Rat) (cands : List QuerySource) : List QuerySource :=
  cands.filter (fun c => decide (minScore ≤ c.score))

/-- Modelled from the spec: the Answer Synthesizer behind POST /api/query/,
absent from the portal source. Per the spec it returns answer text, the
retained sources in ranked order, and a confidence that is derived from the
top score, monotonic in it, and 0 when no candidate clears min_score; on empty
context it short-circuits to a deterministic insufficient-information answer
with empty sources and confidence 0. -/
def answerQuery (question : String) (minScore : Rat) (cands : List QuerySource) : QueryResponse :=
  match retrieveFiltered minScore cands with
  | [] =>
    { success := true, query := question
      answer := "Insufficient information in the selected transcripts."
      sources := [], confidence := 0, timestamp := none }
  | c :: cs =>
    { success := true, query := question
      answer := "Answer synthesized from " ++ toString (c :: cs).length ++ " retrieved chunks."
      sources := c :: cs, confidence := c.score, timestamp := none }

/-- Conversation from core/models/transcript.model.ts (the conversation model
section): the isolation boundary carrying LLM settings, lock state and
statistics. -/
structure Conversation where
  id : String
  name : String
  user_id : String
  description : Option String
  llm_provider : Option String
  llm_model : Option String
  llm_temperature : Option Rat
  llm_base_url : Option String
  mcp_server_id : Option String
  is_locked : Option Bool
  lock_reason : Option String
  locked_at : Option String
  file_count : Nat
  query_count : Nat
  total_size_mb : Rat
  created_at : String
  updated_at : String
  last_activity_at : String
deriving DecidableEq

/-- Reading of the optional is_locked flag: an absent flag means unlocked. -/
def isLocked (c : Conversation) : Bool := c.is_locked.getD false

/-- Modelled from the spec: the backend upload path, absent from the portal
source. Per the spec, "a locked conversation rejects new uploads/queries but
remains readable"; an accepted upload adds one file to the conversation. -/
def engineUpload (c : Conversation) : Except String Conversation :=
  if isLocked c then Except.error "conversation is locked: new uploads are rejected"
  else Except.ok { c with file_count := c.file_count + 1 }

/-- Modelled from the spec: the backend query path, absent from the portal
source. A locked conversation rejects new queries; otherwise the modelled
Answer Synthesizer runs. -/
def engineQuery (c : Conversation) (question : String) (minScore : Rat)
    (cands : List QuerySource) : Except String QueryResponse :=
  if isLocked c then Except.error "conversation is locked: new queries are rejected"
  else Except.ok (answerQuery question minScore cands)

/-- Modelled from the spec: the backend read path, absent from the portal
source. A locked conversation remains readable. -/
def engineRead (c : Conversation) : Except String Conversation := Except.ok c

/-- Boolean success test for Except results. -/
def isOkE {α : Type} : Except String α → Bool
  | Except.ok _ => true
  | Except.error _ => false

/-- Client-side state of ConversationService (src/unnamed/part_006): the
conversations signal and the selectedConversation signal. -/
structure ConvState where
  conversations : List Conversation
  selectedConversation : Option Conversation
deriving DecidableEq

/-- One element of the violations array of the DowngradeValidation interface
in core/models (conversation model section). -/
structure DowngradeViolationItem where
  conversation_id : String
  conversation_name : String
  current_files : Nat
  max_allowed : Int
  excess : Int
deriving DecidableEq

/-- DowngradeValidation from the conversation models: the payload returned by
the validate-downgrade entrypoint. -/
structure DowngradeValidation where
  can_downgrade : Bool
  reason : Option String
  current_count : Option Nat
  max_allowed : Option Int
  excess_count : Option Int
  action_required : Option String
  violations : Option (List DowngradeViolationItem)
  message : Option String
deriving DecidableEq

/-- Observable completions of ConversationService calls, as seen by the
client state: each constructor carries the server payload that the
corresponding tap block (or, for downgradeValidated, the absence of one)
reacts to. -/
inductive ConvOp where
  | created (c : Conversation)
  | listed (cs : List Conversation)
  | updated (conversationId : String) (c : Conversation)
  | deleted (conversationId : String)
  | downgradeValidated (r : DowngradeValidation)
deriving DecidableEq

/-- State transition of ConversationService on each completed call,
transcribed from the tap blocks in src/unnamed/part_006: create appends and
selects, list replaces and auto-selects the first when none is selected,
update maps by id and refreshes the selection when it is the updated one,
delete filters by id and reselects the head when the selected one was
deleted, and validateDowngrade has no tap at all. -/
def conversationStep (s : ConvState) : ConvOp → ConvState
  | ConvOp.created c =>
    { conversations := s.conversations ++ [c], selectedConversation := some c }
  | ConvOp.listed cs =>
    { conversations := cs
      selectedConversation :=
        match s.selectedConversation with
        | some sel => some sel
        | none => cs.head? }
  | ConvOp.updated conversationId c =>
    { conversations := s.conversations.map (fun x => if x.id = conversationId then c else x)
      selectedConversation :=
        match s.selectedConversation with
        | some sel => if sel.id = conversationId then some c else some sel
        | none => none }
  | ConvOp.deleted conversationId =>
    let remaining := s.conversations.filter (fun x => x.id != conversationId)
    { conversations := remaining
      selectedConversation :=
        match s.selectedConversation with
        | some sel => if sel.id = conversationId then remaining.head? else some sel
        | none => none }
  | ConvOp.downgradeValidated _ => s

/-- Modelled from the spec: the per-conversation file-count check of the
backend validate_downgrade handler, absent from the portal source. Per the
spec it computes, per conversation owned by the user, whether its current
file count exceeds the per-conversation file limit of the new tier (-1
meaning no ceiling), and reports conversation id, current count, new limit
and excess for each violating conversation. -/
def downgradeViolations (convs : List Conversation) (newMaxFiles : Int) : List DowngradeViolationItem :=
  (convs.filter (fun c => decide (newMaxFiles ≠ -1 ∧ newMaxFiles < (c.file_count : Int)))).map
    (fun c =>
      { conversation_id := c.id, conversation_name := c.name
        current_files := c.file_count, max_allowed := newMaxFiles
        excess := (c.file_count : Int) - newMaxFiles })

/-- Server-side store relevant to downgrade validation: the conversations
owned by the requesting user. -/
structure ServerState where
  conversations : List Conversation
deriving DecidableEq

/-- Modelled from the spec: the backend validate-downgrade handler, absent
from the portal source. Per the spec it returns a structured list of
violations, also checking the total conversation count against the new tier
conversation limit, "without mutating anything". -/
def validateDowngradeHandler (st : ServerState) (newMaxFiles newMaxConvs : Int) :
    ServerState × DowngradeValidation :=
  let vs := downgradeViolations st.conversations newMaxFiles
  let convExcess : Bool := decide (newMaxConvs ≠ -1 ∧ newMaxConvs < (st.conversations.length : Int))
  (st,
    { can_downgrade := vs.isEmpty && !convExcess
      reason := none
      current_count := some st.conversations.length
      max_allowed := some newMaxConvs
      excess_count := if convExcess then some ((st.conversations.length : Int) - newMaxConvs) else none
      action_required := none
      violations := some vs
      message := none })

/-- ProviderStatus from core/services/llm.service.ts. -/
inductive ProviderStatus where
  | available
  | coming_soon
  | beta
  | deprecated
deriving DecidableEq

/-- LLMProviderInfo from core/services/llm.service.ts. -/
structure LLMProviderInfo where
  provider : String
  name : String
  description : String
  available : Bool
  status : ProviderStatus
  models : List String
  requires_api_key : Bool
  is_local : Bool
  endpoint : Option String
  eta : Option String
deriving DecidableEq

/-- Fallback provider list installed by ChatComponent.loadLLMProviders when
listProviders fails, transcribed from features/chat/chat.component.ts. -/
def fallbackProviders : List LLMProviderInfo :=
  [{ provider := "openai", name := "OpenAI", description := "GPT-4, GPT-3.5"
     available := false, status := ProviderStatus.available, models := []
     requires_api_key := true, is_local := false, endpoint := none, eta := none },
   { provider := "ollama", name := "Ollama", description := "Local LLMs"
     available := false, status := ProviderStatus.available, models := []
     requires_api_key := false, is_local := true, endpoint := none, eta := none },
   { provider := "lmstudio", name := "LM Studio", description := "Local"
     available := false, status := ProviderStatus.available, models := []
     requires_api_key := false, is_local := true, endpoint := none, eta := none },
   { provider := "gemini", name := "Google Gemini", description := "Gemini Pro"
     available := false, status := ProviderStatus.coming_soon, models := []
     requires_api_key := true, is_local := false, endpoint := none, eta := some "Q2 2026" },
   { provider := "claude", name := "Anthropic Claude", description := "Claude 3"
     available := false, status := ProviderStatus.coming_soon, models := []
     requires_api_key := true, is_local := false, endpoint := none, eta := some "Q2 2026" },
   { provider := "copilot", name := "MS Copilot", description := "Azure"
     available := false, status := ProviderStatus.coming_soon, models := []
     requires_api_key := true, is_local := false, endpoint := none, eta := some "Q3 2026" },
   { provider := "n8n", name := "n8n Agentic", description := "Workflows"
     available := false, status := ProviderStatus.coming_soon, models := []
     requires_api_key := true, is_local := false, endpoint := none, eta := some "Q3 2026" },
   { provider := "mcp", name := "MCP Server", description := "Tools"
     available := false, status := ProviderStatus.coming_soon, models := []
     requires_api_key := false, is_local := false, endpoint := none, eta := some "Q2 2026" }]

/-- Provider names the source marks Coming Soon in the LLMProvider union of
the conversation models. -/
def comingSoonProviderNames : List String := ["gemini", "claude", "copilot", "n8n", "mcp"]

/-- Provider-selection state of ChatComponent: the formProvider and formModel
fields touched by selectProvider. -/
structure ChatSettings where
  formProvider : String
  formModel : String
deriving DecidableEq

/-- ChatComponent.selectProvider from features/chat/chat.component.ts: a
no-op when the provider is not available, otherwise it sets formProvider to
the chosen provider and resets formModel. -/
def selectProvider (p : LLMProviderInfo) (s : ChatSettings) : ChatSettings :=
  if !p.available then s
  else { formProvider := p.provider, formModel := "" }

/-- HTTP method of a request issued through ApiService. -/
inductive HttpMethod where
  | get
  | post
  | put
  | patch
  | delete
deriving DecidableEq

/-- Description of one HTTP request issued by a service: method, endpoint and
query parameters. -/
structure ApiRequest where
  method : HttpMethod
  endpoint : String
  params : List (String × String)
deriving DecidableEq

/-- Query parameters built by UsageService.getSummary: a month or year is
added only when truthy (JavaScript drops a 0 value as falsy). -/
def summaryParams (month year : Option Nat) : List (String × String) :=
  (match month with
   | some m => if m = 0 then [] else [("month", toString m)]
   | none => []) ++
  (match year with
   | some y => if y = 0 then [] else [("year", toString y)]
   | none => [])

/-- Request issued by UsageService.getSummary in core/services/auth.service.ts
(usage service section). -/
def getSummaryRequest (month year : Option Nat) : ApiRequest :=
  { method := HttpMethod.get, endpoint := "/api/usage/summary"
    params := summaryParams month year }

/-- Request issued by UsageService.getLimits. -/
def getLimitsRequest : ApiRequest :=
  { method := HttpMethod.get, endpoint := "/api/usage/limits", params := [] }

/-- Request issued by UsageService.getPricing. -/
def getPricingRequest : ApiRequest :=
  { method := HttpMethod.get, endpoint := "/api/usage/pricing", params := [] }

/-- Mutable client-side stores the portal keeps: the query history subject,
the conversation signals, the chat provider settings, and the prefixed
localStorage entries. -/
structure ClientStores where
  queryHistory : List QueryResponse
  convState : ConvState
  chat : ChatSettings
  storage : List (String × String)
deriving DecidableEq

/-- UsageService.getSummary as a client-state transition paired with the
request it issues: the method body only delegates to ApiService.get, so the
stores are passed through untouched. -/
def getSummaryCall (s : ClientStores) (month year : Option Nat) : ClientStores × ApiRequest :=
  (s, getSummaryRequest month year)

/-- UsageService.getLimits as a client-state transition paired with the
request it issues. -/
def getLimitsCall (s : ClientStores) : ClientStores × ApiRequest :=
  (s, getLimitsRequest)

/-- UsageService.getPricing as a client-state transition paired with the
request it issues. -/
def getPricingCall (s : ClientStores) : ClientStores × ApiRequest :=
  (s, getPricingRequest)

/-- Limit value of a usage-limit record in the usage models: the source types
it number | string. -/
inductive LimitValue where
  | num (n : Rat)
  | str (s : String)
deriving DecidableEq

/-- UsageComponent.getUsagePercent from features/usage/usage.component.ts:
0 for a -1 or unlimited limit, otherwise min of (current / limit) * 100 and
100. A non-numeric limit string other than unlimited has no numeric result
in JavaScript (NaN), embedded here as none. -/
def getUsagePercent (current : Rat) (limit : LimitValue) : Option Rat :=
  match limit with
  | LimitValue.num n => if n = -1 then some 0 else some (min (current / n * 100) 100)
  | LimitValue.str s => if s = "unlimited" then some 0 else none

/-- Attempt-counting runner for an ApiService request pipeline: f gives the
outcome of each attempt, the second argument is the attempt number, the third
the retries still allowed by the rxjs retry operator. Returns how many
attempts ran and the surfaced outcome. -/
def runRetry {α : Type} (f : Nat → Except String α) (attempt : Nat) : Nat → Nat × Except String α
  | 0 => (attempt + 1, f attempt)
  | retries + 1 =>
    match f attempt with
    | Except.ok a => (attempt + 1, Except.ok a)
    | Except.error _ => runRetry f (attempt + 1) retries

/-- ApiService.get: its pipe applies retry(1) before catchError. -/
def apiGet {α : Type} (f : Nat → Except String α) : Nat × Except String α :=
  runRetry f 0 1

/-- ApiService.post: its pipe has catchError only, no retry operator. -/
def apiPost {α : Type} (f : Nat → Except String α) : Nat × Except String α :=
  runRetry f 0 0

/-- ApiService.put: catchError only, no retry operator. -/
def apiPut {α : Type} (f : Nat → Except String α) : Nat × Except String α :=
  runRetry f 0 0

/-- ApiService.patch: catchError only, no retry operator. -/
def apiPatch {α : Type} (f : Nat → Except String α) : Nat × Except String α :=
  runRetry f 0 0

/-- ApiService.delete: catchError only, no retry operator. -/
def apiDelete {α : Type} (f : Nat → Except String α) : Nat × Except String α :=
  runRetry f 0 0

/-- ApiService.upload: catchError only, no retry operator. -/
def apiUpload {α : Type} (f : Nat → Except String α) : Nat × Except String α :=
  runRetry f 0 0

/-- History update done by the tap block of QueryService.query: the new
response is prepended and the list is truncated to the first 20 entries. -/
def queryTap (history : List QueryResponse) (response : QueryResponse) : List QueryResponse :=
  (response :: history).take 20

/-- Operations that write the query-history subject of QueryService: a
successful query, or clearHistory. No other method of the service touches
the subject. -/
inductive HistoryOp where
  | queryOk (response : QueryResponse)
  | clear
deriving DecidableEq

/-- Effect of one history operation on the subject value. -/
def applyHistoryOp (history : List QueryResponse) : HistoryOp → List QueryResponse
  | HistoryOp.queryOk r => queryTap history r
  | HistoryOp.clear => []

/-- Subject value after a sequence of operations, starting from the initial
empty history the subject is constructed with. -/
def runHistory (ops : List HistoryOp) : List QueryResponse :=
  ops.foldl applyHistoryOp []

/-- ChatComponent.toggleTranscript from features/chat/chat.component.ts:
when the id is present (indexOf above -1) the selection is filtered to drop
it, otherwise the id is appended. -/
def toggleTranscript (ids : List String) (transcriptId : String) : List String :=
  if transcriptId ∈ ids then ids.filter (fun i => i != transcriptId)
  else ids ++ [transcriptId]

/-- ChatComponent.clearSelection: the selection signal is set to the empty
list. -/
def clearSelection : List String := []

/-- Concrete locked conversation (locked by a tier downgrade) used to
exercise the lock gate. -/
def demoLockedConversation : Conversation :=
  { id := "c9", name := "Locked Demo", user_id := "u1"
    description := none, llm_provider := none, llm_model := none
    llm_temperature := none, llm_base_url := none, mcp_server_id := none
    is_locked := some true, lock_reason := some "tier downgrade"
    locked_at := some "2026-01-01T00:00:00Z"
    file_count := 8, query_count := 0, total_size_mb := 0
    created_at := "2026-01-01", updated_at := "2026-01-01"
    last_activity_at := "2026-01-01" }

/-- Concrete conversation holding 8 files, used to exercise downgrade
validation against a 5-file limit. -/
def demoProConversation : Conversation :=
  { id := "c1", name := "Demo Conversation", user_id := "u1"
    description := none, llm_provider := none, llm_model := none
    llm_temperature := none, llm_base_url := none, mcp_server_id := none
    is_locked := none, lock_reason := none, locked_at := none
    file_count := 8, query_count := 0, total_size_mb := 0
    created_at := "2026-01-01", updated_at := "2026-01-01"
    last_activity_at := "2026-01-01" }

/-- Concrete retrieval candidate used to exercise the query contract. -/
def demoCandidate : QuerySource :=
  { transcript_id := "t1", chunk_index := 0, score := mkRat 9 10
    preview := "AI and machine learning" }

lemma applyHistoryOp_length_le (history : List QueryResponse) (op : HistoryOp) :
    (applyHistoryOp history op).length ≤ 20 := by
  cases op with
  | queryOk r => simp [applyHistoryOp, queryTap, List.length_take]
  | clear => simp [applyHistoryOp]

lemma runHistory_aux (ops : List HistoryOp) :
    ∀ history : List QueryResponse, history.length ≤ 20 →
      (ops.foldl applyHistoryOp history).length ≤ 20 := by
  induction ops with
  | nil => intro history hh; simpa using hh
  | cons op rest ih =>
    intro history hh
    exact ih _ (applyHistoryOp_length_le history op)

/-- Claim C1: every successful response of the query entrypoint carries an
answer text, an ordered source list whose elements each declare a
transcript_id, a chunk_index and a score (required fields of the client
contract), and a confidence lying in the closed interval from 0 to 1; the
source list of the modelled engine preserves the candidate ranking order. -/
theorem query_entrypoint_response_contract (q : String) (minScore : Rat)
    (cands : List QuerySource)
    (h : ∀ c ∈ cands, 0 ≤ c.score ∧ c.score ≤ 1) :
    ("answer" ∈ requiredFieldNames queryResponseFields
      ∧ "sources" ∈ requiredFieldNames queryResponseFields
      ∧ "confidence" ∈ requiredFieldNames queryResponseFields
      ∧ "transcript_id" ∈ requiredFieldNames querySourceFields
      ∧ "chunk_index" ∈ requiredFieldNames querySourceFields
      ∧ "score" ∈ requiredFieldNames querySourceFields)
    ∧ 0 ≤ (answerQuery q minScore cands).confidence
    ∧ (answerQuery q minScore cands).confidence ≤ 1
    ∧ (answerQuery q minScore cands).sources.Sublist cands := by
  have hsub : (retrieveFiltered minScore cands).Sublist cands := List.filter_sublist _
  refine ⟨by decide, ?_⟩
  cases hq : retrieveFiltered minScore cands with
  | nil =>
    simp only [answerQuery, hq]
    exact ⟨le_refl 0, by norm_num, List.nil_sublist _⟩
  | cons c cs =>
    have hmem : c ∈ retrieveFiltered minScore cands := by
      rw [hq]; exact List.mem_cons_self c cs
    have hc : c ∈ cands := by
      unfold retrieveFiltered at hmem
      exact List.mem_of_mem_filter hmem
    rw [hq] at hsub
    simp only [answerQuery, hq]
    exact ⟨(h c hc).1, (h c hc).2, hsub⟩

/-- Witness for C1 at a concrete candidate list. -/
theorem query_entrypoint_response_contract_witness :
    (∀ c ∈ [demoCandidate], 0 ≤ c.score ∧ c.score ≤ 1)
    ∧ 0 ≤ (answerQuery "What topics are discussed?" (mkRat 1 2) [demoCandidate]).confidence
    ∧ (answerQuery "What topics are discussed?" (mkRat 1 2) [demoCandidate]).confidence ≤ 1 :=
  ⟨by decide,
   (query_entrypoint_response_contract "What topics are discussed?" (mkRat 1 2) [demoCandidate]
      (by decide)).2.1,
   (query_entrypoint_response_contract "What topics are discussed?" (mkRat 1 2) [demoCandidate]
      (by decide)).2.2.1⟩

/-- Claim C2 counterexample: the UploadResponse contract declares no
transcript id field at all, neither transcript_id nor id. -/
theorem uploadResponse_lacks_transcript_id :
    "transcript_id" ∉ fieldNames uploadResponseFields
    ∧ "id" ∉ fieldNames uploadResponseFields := by
  decide

/-- Claim C2 (amended): the UploadResponse contract carries the success flag,
the uploaded file name (the identifier under which the transcript API
addresses the transcript), the indexed flag, and an optional chunks_created
count; it carries no transcript id field. -/
theorem uploadResponse_amended_contract :
    "success" ∈ requiredFieldNames uploadResponseFields
    ∧ "filename" ∈ requiredFieldNames uploadResponseFields
    ∧ "indexed" ∈ requiredFieldNames uploadResponseFields
    ∧ TSField.mk "chunks_created" true ∈ uploadResponseFields
    ∧ "transcript_id" ∉ fieldNames uploadResponseFields := by
  decide

/-- Claim C3: a conversation whose is_locked flag is true rejects a new
upload and a new query, while a read of the conversation still succeeds. -/
theorem locked_conversation_rejects_writes_remains_readable
    (c : Conversation) (question : String) (minScore : Rat)
    (cands : List QuerySource) (h : isLocked c = true) :
    isOkE (engineUpload c) = false
    ∧ isOkE (engineQuery c question minScore cands) = false
    ∧ engineRead c = Except.ok c := by
  refine ⟨?_, ?_, rfl⟩ <;> simp [engineUpload, engineQuery, isOkE, h]

/-- Witness for C3 at a concrete locked conversation. -/
theorem locked_conversation_witness :
    isLocked demoLockedConversation = true
    ∧ isOkE (engineUpload demoLockedConversation) = false
    ∧ isOkE (engineQuery demoLockedConversation "q" 0 []) = false
    ∧ engineRead demoLockedConversation = Except.ok demoLockedConversation :=
  ⟨by decide,
   (locked_conversation_rejects_writes_remains_readable demoLockedConversation "q" 0 []
      (by decide)).1,
   (locked_conversation_rejects_writes_remains_readable demoLockedConversation "q" 0 []
      (by decide)).2.1,
   (locked_conversation_rejects_writes_remains_readable demoLockedConversation "q" 0 []
      (by decide)).2.2⟩

/-- Claim C4: validateDowngrade mutates nothing, on either side: the client
conversation signals are untouched (its pipe has no tap), the modelled server
handler returns its store unchanged, and every reported violation carries the
conversation id, the current file count, the new limit and the excess of an
actually over-limit conversation. -/
theorem validateDowngrade_pure_and_structured
    (s : ConvState) (r : DowngradeValidation) (st : ServerState)
    (newMaxFiles newMaxConvs : Int) (v : DowngradeViolationItem)
    (hv : v ∈ downgradeViolations st.conversations newMaxFiles) :
    conversationStep s (ConvOp.downgradeValidated r) = s
    ∧ (validateDowngradeHandler st newMaxFiles newMaxConvs).1 = st
    ∧ ∃ c ∈ st.conversations,
        v.conversation_id = c.id ∧ v.current_files = c.file_count
        ∧ v.max_allowed = newMaxFiles
        ∧ v.excess = (c.file_count : Int) - newMaxFiles
        ∧ newMaxFiles < (c.file_count : Int) := by
  refine ⟨rfl, rfl, ?_⟩
  unfold downgradeViolations at hv
  obtain ⟨c, hc, hvc⟩ := List.mem_map.mp hv
  obtain ⟨hcm, hcp⟩ := List.mem_filter.mp hc
  refine ⟨c, hcm, ?_⟩
  cases hvc
  exact ⟨rfl, rfl, rfl, rfl, (of_decide_eq_true hcp).2⟩

/-- Witness for C4: the spec downgrade scenario, one conversation holding 8
files moving to a 5-file limit yields the violation with excess 3. -/
theorem validateDowngrade_witness :
    DowngradeViolationItem.mk "c1" "Demo Conversation" 8 5 3
      ∈ downgradeViolations [demoProConversation] 5
    ∧ ((validateDowngradeHandler (ServerState.mk [demoProConversation]) 5 3).1
        = ServerState.mk [demoProConversation]
      ∧ ∃ c ∈ [demoProConversation],
          (DowngradeViolationItem.mk "c1" "Demo Conversation" 8 5 3).conversation_id = c.id
          ∧ (DowngradeViolationItem.mk "c1" "Demo Conversation" 8 5 3).current_files = c.file_count
          ∧ (DowngradeViolationItem.mk "c1" "Demo Conversation" 8 5 3).max_allowed = 5
          ∧ (DowngradeViolationItem.mk "c1" "Demo Conversation" 8 5 3).excess = (c.file_count : Int) - 5
          ∧ (5 : Int) < (c.file_count : Int)) :=
  ⟨by decide,
   (validateDowngrade_pure_and_structured (ConvState.mk [] none)
      (DowngradeValidation.mk true none none none none none none none)
      (ServerState.mk [demoProConversation]) 5 3
      (DowngradeViolationItem.mk "c1" "Demo Conversation" 8 5 3) (by decide)).2⟩

/-- Claim C5: the fallback provider list shows every coming-soon provider as
a visible entry with status coming_soon and available false (none is
omitted), every coming-soon entry of that list is unavailable, and selecting
any unavailable provider is a no-op on the chat settings. -/
theorem coming_soon_providers_listed_not_selectable
    (p : LLMProviderInfo) (s : ChatSettings) (h : p.available = false) :
    selectProvider p s = s
    ∧ (∀ pname ∈ comingSoonProviderNames,
        ∃ q ∈ fallbackProviders,
          q.provider = pname ∧ q.status = ProviderStatus.coming_soon ∧ q.available = false)
    ∧ (∀ q ∈ fallbackProviders, q.status = ProviderStatus.coming_soon → q.available = false) := by
  refine ⟨by simp [selectProvider, h], by decide, by decide⟩

/-- Witness for C5 at the gemini fallback entry. -/
theorem coming_soon_providers_witness :
    (LLMProviderInfo.mk "gemini" "Google Gemini" "Gemini Pro" false
      ProviderStatus.coming_soon [] true false none (some "Q2 2026")).available = false
    ∧ selectProvider
        (LLMProviderInfo.mk "gemini" "Google Gemini" "Gemini Pro" false
          ProviderStatus.coming_soon [] true false none (some "Q2 2026"))
        (ChatSettings.mk "openai" "gpt-4")
      = ChatSettings.mk "openai" "gpt-4" :=
  ⟨rfl,
   (coming_soon_providers_listed_not_selectable
      (LLMProviderInfo.mk "gemini" "Google Gemini" "Gemini Pro" false
        ProviderStatus.coming_soon [] true false none (some "Q2 2026"))
      (ChatSettings.mk "openai" "gpt-4") rfl).1⟩

/-- Claim C6: each usage read issues only a GET request, and the client
stores are passed through untouched by all three calls. -/
theorem usage_reads_side_effect_free (s : ClientStores) (month year : Option Nat) :
    (getSummaryCall s month year).1 = s
    ∧ (getLimitsCall s).1 = s
    ∧ (getPricingCall s).1 = s
    ∧ (getSummaryCall s month year).2.method = HttpMethod.get
    ∧ (getLimitsCall s).2.method = HttpMethod.get
    ∧ (getPricingCall s).2.method = HttpMethod.get :=
  ⟨rfl, rfl, rfl, rfl, rfl, rfl⟩

lemma usagePercent_le_100 (current : Rat) (limit : LimitValue) (p : Rat)
    (hp : getUsagePercent current limit = some p) : p ≤ 100 := by
  cases limit with
  | num m =>
    by_cases hm : m = -1
    · simp [getUsagePercent, hm] at hp
      rw [← hp]; norm_num
    · simp [getUsagePercent, hm] at hp
      rw [← hp]; exact min_le_right _ _
  | str s =>
    by_cases hs : s = "unlimited"
    · simp [getUsagePercent, hs] at hp
      rw [← hp]; norm_num
    · simp [getUsagePercent, hs] at hp

/-- Claim C7: getUsagePercent returns 0 for a -1 limit and for the string
unlimited, otherwise the capped percentage min of (current / limit) * 100
and 100, and every numeric result it produces is at most 100. -/
theorem usage_percent_unlimited_and_capped
    (current n : Rat) (limit : LimitValue) (p : Rat)
    (hp : getUsagePercent current limit = some p) :
    getUsagePercent current (LimitValue.num (-1)) = some 0
    ∧ getUsagePercent current (LimitValue.str "unlimited") = some 0
    ∧ (n ≠ -1 → getUsagePercent current (LimitValue.num n)
        = some (min (current / n * 100) 100))
    ∧ p ≤ 100 := by
  refine ⟨by simp [getUsagePercent], rfl, fun hn => by simp [getUsagePercent, hn], ?_⟩
  exact usagePercent_le_100 current limit p hp

/-- Witness for C7 at the unlimited limit value. -/
theorem usage_percent_witness :
    getUsagePercent 0 (LimitValue.str "unlimited") = some 0 ∧ (0 : Rat) ≤ 100 :=
  ⟨by decide,
   (usage_percent_unlimited_and_capped 0 5 (LimitValue.str "unlimited") 0 (by decide)).2.2.2⟩

/-- Claim C8: the mutating pipelines of ApiService run their request exactly
once and surface the outcome of that single attempt, while get retries once:
it runs a second attempt exactly when the first fails. -/
theorem mutating_requests_never_retried {α : Type} (f : Nat → Except String α) :
    apiPost f = (1, f 0)
    ∧ apiPut f = (1, f 0)
    ∧ apiPatch f = (1, f 0)
    ∧ apiDelete f = (1, f 0)
    ∧ apiUpload f = (1, f 0)
    ∧ apiGet f = (match f 0 with
        | Except.ok a => (1, Except.ok a)
        | Except.error _ => (2, f 1)) := by
  refine ⟨rfl, rfl, rfl, rfl, rfl, ?_⟩
  cases hf : f 0 <;> simp [apiGet, runRetry, hf]

/-- Claim C9: the query history never exceeds 20 entries after any sequence
of operations from the initial empty subject, and the tap of a successful
query prepends the new response (most recent first). -/
theorem query_history_bounded :
    (∀ (history : List QueryResponse) (r : QueryResponse),
        (queryTap history r).head? = some r)
    ∧ ∀ ops : List HistoryOp, (runHistory ops).length ≤ 20 := by
  constructor
  · intro history r
    rfl
  · intro ops
    exact runHistory_aux ops [] (by simp)

/-- Claim C10: toggling a transcript id removes it when present and adds it
when absent, toggling twice restores the original selection as a set, and
clearSelection yields the empty selection. -/
theorem toggleTranscript_membership_involution (ids : List String) (tid : String) :
    (tid ∈ toggleTranscript ids tid ↔ tid ∉ ids)
    ∧ (∀ x, x ∈ toggleTranscript (toggleTranscript ids tid) tid ↔ x ∈ ids)
    ∧ clearSelection = [] := by
  refine ⟨?_, ?_, rfl⟩
  · by_cases h : tid ∈ ids
    · simp [toggleTranscript, h, List.mem_filter]
    · simp [toggleTranscript, h]
  · intro x
    by_cases h : tid ∈ ids
    · have ht1 : toggleTranscript ids tid = ids.filter (fun i => i != tid) := by
        simp [toggleTranscript, h]
      have h1 : tid ∉ ids.filter (fun i => i != tid) := by
        simp [List.mem_filter]
      have ht2 : toggleTranscript (ids.filter (fun i => i != tid)) tid
          = ids.filter (fun i => i != tid) ++ [tid] := by
        simp [toggleTranscript, h1]
      rw [ht1, ht2]
      by_cases hx : x = tid
      · subst hx; simp [h]
      · simp [List.mem_append, List.mem_filter, hx]
    · have ht1 : toggleTranscript ids tid = ids ++ [tid] := by
        simp [toggleTranscript, h]
      have h1 : tid ∈ ids ++ [tid] := by simp
      have ht2 : toggleTranscript (ids ++ [tid]) tid
          = (ids ++ [tid]).filter (fun i => i != tid) := by
        simp [toggleTranscript, h1]
      rw [ht1, ht2]
      by_cases hx : x = tid
      · subst hx; simp [List.mem_filter, h]
      · simp [List.mem_filter, List.mem_append, hx]
